import Mathlib

/-!
Verification development for the ssm-rank-scraper repository.

Python strings are embedded as `List Char`; fallible Python code
(raising exceptions) is embedded as `Option`-returning functions where
`none` marks the raised exception.  Pandas frames are embedded as
explicit column lists and row grids.  Definitions follow the source
files `year_parser.py`, `grabber.py` and `ssm_rank_scraper.py`.
-/

set_option maxHeartbeats 1600000

/-! ### Generic helpers modelling Python string primitives -/

/-- Models Python `str.strip()`: drop whitespace from both ends. -/
def pyStrip (s : List Char) : List Char :=
  ((s.dropWhile Char.isWhitespace).reverse.dropWhile Char.isWhitespace).reverse

/-- Numeric value of a digit list, used by the `int(...)` model. -/
def digitsToNat (s : List Char) : Nat :=
  s.foldl (fun n c => n * 10 + (c.toNat - 48)) 0

/-- Models Python `int(s)` on a plain (unsigned) decimal literal:
`none` is the raised `ValueError` for empty or non-digit input. -/
def strToNat? (s : List Char) : Option Nat :=
  if s ≠ [] ∧ s.all Char.isDigit then some (digitsToNat s) else none

/-- Models Python `int(s)` on a plain decimal literal with an optional
leading minus sign; `none` is the raised `ValueError`. -/
def strToInt? (s : List Char) : Option Int :=
  match s with
  | '-' :: rest => (strToNat? rest).map (fun n => -(n : Int))
  | _ => (strToNat? s).map (fun n => (n : Int))

/-! ### year_parser.py -/

/-- From `year_parser.py` (`parse_year_long`): a 2-character year gets a
leading `20`; a 4-character year is returned as is; any other length
raises `UnrecognizedYearError`, embedded as `none`.  The Python
function first coerces its argument with `str(year)`; inputs here are
already the coerced string. -/
def parse_year_long (year : List Char) : Option (List Char) :=
  if year.length = 2 then some ('2' :: '0' :: year)
  else if year.length = 4 then some year
  else none

/-- From `year_parser.py` (`parse_year_short`): a 2-character year is
returned as is; a 4-character year is cut to its characters 2..3
(Python slice `year[2:4]`); any other length raises
`UnrecognizedYearError`, embedded as `none`. -/
def parse_year_short (year : List Char) : Option (List Char) :=
  if year.length = 2 then some year
  else if year.length = 4 then some ((year.drop 2).take 2)
  else none

/-- From `year_parser.py` (`parse_year_int`): `int(parse_year_long(year))`;
either failure (length error or non-numeric text) is `none`. -/
def parse_year_int (year : List Char) : Option Int :=
  (parse_year_long year).bind strToInt?

/-! ### grabber.py: get_columns -/

/-- The 7-column layout returned by `get_columns` for years up to 2018. -/
def columnsPre2019 : List String :=
  ["#", "cognome_nome", "Tot", "Prova", "Titoli", "Stato", "Note"]

/-- The 8-column layout returned by `get_columns` for years after 2018. -/
def columnsPost2019 : List String :=
  ["#", "cognome_nome", "Tot", "Prova", "Titoli", "Stato",
   "Note_sessione_straordinaria", "Note_immatricolazione"]

/-- From `grabber.py` (`get_columns`): dispatches on
`parse_year_int(year) <= 2018`; a year-normalization failure
propagates (embedded as `none`). -/
def get_columns (year : List Char) : Option (List String) :=
  (parse_year_int year).map (fun n =>
    if n ≤ 2018 then columnsPre2019 else columnsPost2019)

/-! ### grabber.py: account-code extraction from the capability link

`_extract_previdence_code_from_authentication_link` runs
`urlparse` and `parse_qs` from the standard library, reads
`parsed_qs["username"][0]`, removes every occurrence of `"MEM"`, applies
`re.sub` with the pattern underscore, 2 to 4 digits, then dot-star-dollar,
and strips the result.  The stdlib pieces are embedded below at the
granularity the code relies on; percent-decoding is omitted because the
capability links contain no escape sequences. -/

/-- Text before the first `#` of a URL (`urlparse` removes the fragment
before looking for the query separator). -/
def beforeFragment (s : List Char) : List Char :=
  s.takeWhile (fun c => c ≠ '#')

/-- Text after the first `?`, or empty when there is none. -/
def afterQuestionMark : List Char → List Char
  | [] => []
  | '?' :: rest => rest
  | _ :: rest => afterQuestionMark rest

/-- The query component extracted by `urlparse`. -/
def urlQuery (link : List Char) : List Char :=
  afterQuestionMark (beforeFragment link)

/-- Split a query field at its first `=`; `none` when there is no `=`
(such fields are skipped by `parse_qs`). -/
def splitFirstEq : List Char → Option (List Char × List Char)
  | [] => none
  | '=' :: rest => some ([], rest)
  | c :: rest => (splitFirstEq rest).map (fun pr => (c :: pr.1, pr.2))

/-- The name-value pairs produced by `parse_qs` with its defaults:
fields are separated by `&`, fields without `=` are skipped, and fields
with a blank value are dropped (`keep_blank_values=False`). -/
def parseQsPairs (q : List Char) : List (List Char × List Char) :=
  (List.splitOn '&' q).filterMap (fun f =>
    match splitFirstEq f with
    | none => none
    | some (n, v) => if v = [] then none else some (n, v))

/-- `parsed_qs[key][0]`: the first retained value for `key`; `none` is
the raised `KeyError` when the key is absent. -/
def parseQsFirst (q : List Char) (key : List Char) : Option (List Char) :=
  ((parseQsPairs q).find? (fun p => p.1 = key)).map Prod.snd

/-- Models `user.replace("MEM", "")`: remove every (non-overlapping,
left-to-right) occurrence of `MEM`. -/
def replaceMEM : List Char → List Char
  | 'M' :: 'E' :: 'M' :: rest => replaceMEM rest
  | c :: rest => c :: replaceMEM rest
  | [] => []

/-- Whether a list starts with two decimal digits. -/
def startsWithTwoDigits : List Char → Bool
  | a :: b :: _ => a.isDigit && b.isDigit
  | _ => false

/-- Models `re.sub` with the pattern underscore, 2 to 4 digits, then
dot-star-dollar, replacing by the empty string, for inputs without a
newline: everything from the leftmost underscore that is followed by at
least two digits is removed. -/
def subYearSuffix : List Char → List Char
  | [] => []
  | c :: rest =>
    if (c == '_') && startsWithTwoDigits rest then []
    else c :: subYearSuffix rest

/-- From `grabber.py`
(`_extract_previdence_code_from_authentication_link`): take the first
`username` query value, remove `MEM`, cut the underscore-year suffix,
strip.  `none` is the `KeyError` raised when `username` is absent. -/
def extract_previdence_code (link : List Char) : Option (List Char) :=
  match parseQsFirst (urlQuery link) ['u', 's', 'e', 'r', 'n', 'a', 'm', 'e'] with
  | none => none
  | some user => some (pyStrip (subYearSuffix (replaceMEM user)))

/-! ### grabber.py: parse_birthday and the clean display name -/

/-- A calendar date as built by `datetime.date`. -/
structure PyDate where
  year : Nat
  month : Nat
  day : Nat
deriving DecidableEq, Repr

/-- Gregorian leap-year rule used by `datetime`. -/
def isLeapYear (y : Nat) : Bool :=
  (y % 4 == 0 && y % 100 != 0) || y % 400 == 0

/-- Days in a month as validated by `datetime`. -/
def daysInMonth (y m : Nat) : Nat :=
  if m = 2 then (if isLeapYear y then 29 else 28)
  else if m = 4 ∨ m = 6 ∨ m = 9 ∨ m = 11 then 30
  else 31

/-- A whole field of 1 to `maxLen` decimal digits, as matched by one
`strptime` directive. -/
def digitField (maxLen : Nat) (s : List Char) : Option Nat :=
  if s ≠ [] ∧ s.length ≤ maxLen ∧ s.all Char.isDigit then some (digitsToNat s)
  else none

/-- Models `datetime.strptime(s, "%d/%m/%Y")` followed by the `date`
constructor: day and month take 1-2 digits, the year up to 4 digits,
separated by literal slashes, and the triple must be a valid calendar
date; any failure raises (`none`). -/
def strptimeDMY (s : List Char) : Option PyDate :=
  match List.splitOn '/' s with
  | [ds, ms, ys] =>
    match digitField 2 ds, digitField 2 ms, digitField 4 ys with
    | some dd, some mm, some yy =>
      if 1 ≤ mm ∧ mm ≤ 12 ∧ 1 ≤ dd ∧ dd ≤ daysInMonth yy mm ∧ 1 ≤ yy
      then some ⟨yy, mm, dd⟩ else none
    | _, _, _ => none
  | _ => none

/-- Split at the last `(` (Python `x.rsplit("(", 1)` when a `(` exists):
returns the text before and after that `(`; `none` when the character
does not occur. -/
def splitLastParen : List Char → Option (List Char × List Char)
  | [] => none
  | c :: rest =>
    match splitLastParen rest with
    | some (a, b) => some (c :: a, b)
    | none => if c = '(' then some ([], rest) else none

/-- From `grabber.py` (`parse_birthday`): take the text after the last
`(`, delete every `)`, strip, and parse as day/month/year; every
failure (no parenthesis, bad date) is swallowed and yields `none`. -/
def parse_birthday (x : List Char) : Option PyDate :=
  match splitLastParen x with
  | none => none
  | some (_, after) => strptimeDMY (pyStrip (after.filter (fun c => c ≠ ')')))

/-- From `grabber.py` (`grab`): the `CognomeNome` column is
`x.rsplit("(", 1)[0].strip()` — text before the last `(` (or the whole
cell when there is none), stripped. -/
def clean_cognome_nome (x : List Char) : List Char :=
  match splitLastParen x with
  | none => pyStrip x
  | some (before, _) => pyStrip before

/-! ### grabber.py: detect_limit -/

/-- The page-1 response as seen by `detect_limit` after parsing:
its HTTP status, the page selector (`bs.find("select", id selPag)`,
`none` when absent) with the text of each of its `option` tags, and the
number of table rows on the page (unused by the code, recorded to state
claims about non-empty tables). -/
structure RankingPage where
  status : Nat
  selPag : Option (List (List Char))
  tableRowCount : Nat

/-- From `grabber.py` (`_convert_option_text_to_integer`):
`int(tag.text.strip())`. -/
def convert_option_text_to_integer (t : List Char) : Option Int :=
  strToInt? (pyStrip t)

/-- Python `max` over a list: raises on an empty list (`none`). -/
def pyMaxInt : List Int → Option Int
  | [] => none
  | x :: xs => some (xs.foldl max x)

/-- From `grabber.py` (`detect_limit`): assert status 200, find the
page selector, and take the maximum of its option values.  `none`
covers every raised exception: the failed assert, the `AttributeError`
when the selector is absent (`select` is `None`), a `ValueError` from
`int`, and `max` on an empty option list.  The table contents are never
consulted. -/
def detect_limit (p : RankingPage) : Option Int :=
  if p.status ≠ 200 then none
  else
    match p.selPag with
    | none => none
    | some opts => (opts.mapM convert_option_text_to_integer).bind pyMaxInt

/-! ### grabber.py: contract derivation inside parse_data -/

/-- A child of the inner `span` marker element: either a bare text node
(`NavigableString`) or a tag with its visible text and optional `title`
attribute. -/
inductive MarkerChild
  | textNode (s : List Char)
  | tagNode (text : List Char) (title : Option (List Char))
deriving DecidableEq

/-- `.text` of a child (a `NavigableString` is its own text). -/
def MarkerChild.textOf : MarkerChild → List Char
  | .textNode s => s
  | .tagNode t _ => t

/-- `.strip()` called directly on a child: only a text node supports
it; calling it on a tag raises `AttributeError` (`none`). -/
def MarkerChild.stripOf : MarkerChild → Option (List Char)
  | .textNode s => some (pyStrip s)
  | .tagNode _ _ => none

/-- `.attrs.get("title", None)` on a child: a text node has no
`attrs` and raises `AttributeError` (outer `none`); a tag yields its
optional title. -/
def MarkerChild.titleOf : MarkerChild → Option (Option (List Char))
  | .textNode _ => none
  | .tagNode _ title => some title

/-- Python `str.upper()`, character by character (the texts involved
are ASCII and symbols, which `Char.toUpper` treats like Python). -/
def pyUpper (s : List Char) : List Char :=
  s.map Char.toUpper

/-- From `grabber.py` (`parse_data`, note-column branch): given the
children of the marker `span`, derive the contract value stored in the
`Contratto` column.  `emojiCount` stands for the external
`emoji.emoji_count` collaborator.  One child means the fixed sentinel
`STAT`; otherwise the second child text, stripped and upper-cased, is
used unless it is empty, a single character, or contains emoji, in
which case the child title attribute (stripped) is used, `None` when
absent.  The outer `none` is a propagated exception (no children, or a
fallback read of `attrs` on a bare text node). -/
def deriveContract (emojiCount : List Char → Nat) (children : List MarkerChild) :
    Option (Option (List Char)) :=
  match children with
  | [] => none
  | c0 :: rest =>
    match c0.stripOf with
    | none => none
    | some _ =>
      match rest with
      | [] => some (some ['S', 'T', 'A', 'T'])
      | c1 :: _ =>
        let contract := pyUpper (pyStrip c1.textOf)
        if contract = [] ∨ contract.length = 1 ∨ emojiCount contract ≠ 0 then
          match c1.titleOf with
          | none => none
          | some none => some none
          | some (some t) => some (some (pyStrip t))
        else some (some contract)

/-! ### grabber.py: anomaly-rank resolution in grab -/

/-- One cell of the rank column as produced by `parse_data`: the float
branch succeeded (the ranks in scope are whole numbers, embedded as
`Int`) or the stripped raw text was kept. -/
inductive RankCell
  | num (v : Int)
  | str (s : List Char)
deriving DecidableEq

/-- Whether the cell came from the numeric branch. -/
def RankCell.isNum : RankCell → Bool
  | .num _ => true
  | .str _ => false

/-- One entry of `df["#"].str.contains("*", regex=False)`: `some` for a
string cell, `none` (NaN) for a numeric cell. -/
def rankCellStar : RankCell → Option Bool
  | .str s => some ('*' ∈ s)
  | .num _ => none

/-- `df["#"].str.contains("*", regex=False).any()`: when every cell is
numeric the column has float dtype and the `.str` accessor raises
`AttributeError` (`none`); otherwise NaN entries are skipped and the
result says whether some string cell contains `*`. -/
def rankColumnHasStar (col : List RankCell) : Option Bool :=
  if col.all RankCell.isNum then none
  else some (col.any (fun c => rankCellStar c = some true))

/-- The `Exception` flag column,
`df["#"].str.contains("*", regex=False).replace(False, None)`:
`some true` flags an anomaly row; `none` covers both a NaN entry
(numeric cell) and a replaced `False`. -/
def exceptionFlags (col : List RankCell) : Option (List (Option Bool)) :=
  if col.all RankCell.isNum then none
  else some (col.map (fun c =>
    match rankCellStar c with
    | some true => some true
    | _ => none))

/-- `df["#"].shift(1)`: a leading NaN followed by all cells but the
last. -/
def rankShift (col : List RankCell) : List (Option RankCell) :=
  none :: col.dropLast.map some

/-- From `grabber.py` (`grab`): the rank column after anomaly
resolution.  With a star anywhere the code runs
`df["#"].replace("(*)", nan).fillna(df["#"].shift(1)).add(1).astype(int)`;
without a star it runs `df["#"].astype(int)` directly (on the
numeric-only column this is unreachable because the star test itself
raises first).  `astype(int)` parses decimal strings and raises on NaN
or other text; `.add(1)` raises on any string; either raise makes the
whole resolution fail (`none`). -/
def resolveRanks (col : List RankCell) : Option (List Int) :=
  match rankColumnHasStar col with
  | none => none
  | some true =>
    let replaced := col.map (fun c =>
      if c = RankCell.str ['(', '*', ')'] then none else some c)
    let filled := List.zipWith (fun r s => r.orElse (fun _ => s)) replaced (rankShift col)
    filled.mapM (fun oc =>
      match oc with
      | some (RankCell.num v) => some (v + 1)
      | _ => none)
  | some false =>
    col.mapM (fun c =>
      match c with
      | RankCell.num v => some v
      | RankCell.str s => strToInt? (pyStrip s))

/-! ### grabber.py: final column selection and blank normalization -/

/-- A cell at the tail of `grab`: pandas missing value (NaN or None) or
a string value. -/
inductive PCell
  | na
  | str (s : String)
deriving DecidableEq

/-- The final pre-2019 column order built in `grab`. -/
def finalColsPre2019 : List String :=
  ["#", "CognomeNome", "Nascita", "Tot", "Prova", "Titoli", "Stato",
   "Contratto", "Specializzazione", "Sede", "Note"]

/-- The final post-2019 column order built in `grab`. -/
def finalColsPost2019 : List String :=
  ["#", "CognomeNome", "Nascita", "Tot", "Prova", "Titoli", "Stato",
   "Contratto_sessione_straordinaria", "Specializzazione_sessione_straordinaria",
   "Sede_sessione_straordinaria", "Contratto_sessione_immatricolazione",
   "Specializzazione_immatricolazione", "Sede_immatricolazione",
   "Note_sessione_straordinaria", "Note_immatricolazione"]

/-- From `grabber.py` (`grab`): the `cols` list — year generation
choice, then `cols.insert(1, "Exception")` when anomaly markers were
present. -/
def finalCols (year : List Char) (exceptions : Bool) : Option (List String) :=
  (parse_year_int year).map (fun n =>
    let cols := if n ≤ 2018 then finalColsPre2019 else finalColsPost2019
    if exceptions then cols.take 1 ++ ["Exception"] ++ cols.drop 1 else cols)

/-- The loop `for col in cols: if col not in df.columns: df[col] = nan`
followed by the selection `df[cols]`: every listed column appears, in
order, a missing one as a whole column of NaN. -/
def fillAndOrder (cols : List String) (df : List (String × List PCell))
    (nrows : Nat) : List (String × List PCell) :=
  cols.map (fun c => (c, (df.lookup c).getD (List.replicate nrows PCell.na)))

/-- One cell of `df.replace([nan, ""], [None, None])`: a missing value
stays missing and a blank string becomes missing. -/
def normalizeCell : PCell → PCell
  | PCell.na => PCell.na
  | PCell.str s => if s = "" then PCell.na else PCell.str s

/-- The tail of `grab`: choose the final column list for the year and
the anomaly flag, fill and order the frame, and normalize blanks to the
missing value.  `none` propagates a year-normalization failure. -/
def grabFinalize (year : List Char) (exceptions : Bool)
    (df : List (String × List PCell)) (nrows : Nat) :
    Option (List (String × List PCell)) :=
  (finalCols year exceptions).map (fun cols =>
    (fillAndOrder cols df nrows).map (fun p => (p.1, p.2.map normalizeCell)))

/-! ### ssm_rank_scraper.py: dfs_are_equal -/

/-- A persisted or freshly scraped frame for the snapshot differ: the
column names and a positional grid of cells, `none` being a missing
value (NaN or None).  Both frames carry the default positional index. -/
structure DF where
  cols : List String
  rows : List (List (Option String))
deriving DecidableEq

/-- `df.shape`: row count then column count. -/
def DF.shape (df : DF) : Nat × Nat :=
  (df.rows.length, df.cols.length)

/-- The cell of `df` at row `i`, column position `j` (outer `none` when
the position does not exist). -/
def DF.cellAt (df : DF) (i j : Nat) : Option (Option String) :=
  (df.rows.get? i).bind (fun r => r.get? j)

/-- One row of
`((df != other_df) & df.notnull() & other_df.notnull()).any(axis=1)`:
whether some aligned pair of cells is present on both sides with
different values. -/
def neqRowAny : List (Option String) → List (Option String) → Bool
  | some a :: t1, some b :: t2 => decide (a ≠ b) || neqRowAny t1 t2
  | _ :: t1, _ :: t2 => neqRowAny t1 t2
  | _, _ => false

/-- `((df != other_df) & ... ).any(axis=1).sum()`: the number of rows
holding a both-present difference. -/
def diffRowCount (df other : DF) : Nat :=
  List.countP (fun pr => neqRowAny pr.1 pr.2) (df.rows.zip other.rows)

/-- The comparison `df != other_df` raises unless the two frames are
identically labeled (same column sequence, same index); the raise is
the `none` that the surrounding `try` of `dfs_are_equal` converts to
the verdict `False`. -/
def tryCompare (df other : DF) : Option Nat :=
  if df.cols = other.cols ∧ df.rows.length = other.rows.length then
    some (diffRowCount df other)
  else none

/-- From `ssm_rank_scraper.py` (`dfs_are_equal`): shapes must match,
every column of `df` must exist in `other`, and no cell may be present
on both sides with different values; any exception while comparing
yields `False`.  Python `and` short-circuits, so the cell comparison
only runs once the first two tests pass. -/
def dfs_are_equal (df other : DF) : Bool :=
  if df.shape = other.shape then
    if df.cols.all (fun c => other.cols.contains c) then
      match tryCompare df other with
      | some n => decide (n = 0)
      | none => false
    else false
  else false

/-- Modelled from the spec text of the Snapshot Differ (claim C2), for
refinement against `dfs_are_equal`: equal iff shapes match, every
column name of the new frame exists in the snapshot, and at every cell
position either both sides are absent or both sides are present and
equal (so a present-versus-absent pair always counts as a
difference). -/
def specIsUnchanged (df other : DF) : Prop :=
  df.shape = other.shape ∧ (∀ c ∈ df.cols, c ∈ other.cols) ∧
  ∀ i < df.rows.length, ∀ j < df.cols.length,
    ((df.cellAt i j).getD none = none ∧ (other.cellAt i j).getD none = none) ∨
    ((df.cellAt i j).getD none ≠ none ∧
     (df.cellAt i j).getD none = (other.cellAt i j).getD none)

instance (df other : DF) : Decidable (specIsUnchanged df other) := by
  unfold specIsUnchanged
  infer_instance

/-! ### Helper lemmas about the differ -/

lemma neqRowAny_eq_false_iff :
    ∀ (r1 r2 : List (Option String)), neqRowAny r1 r2 = false ↔
      ∀ (j : Nat) (a b : String),
        r1.get? j = some (some a) → r2.get? j = some (some b) → a = b := by
  intro r1
  induction r1 with
  | nil =>
    intro r2
    constructor
    · intro _ j a b h1 _
      simp at h1
    · intro _
      cases r2 <;> rfl
  | cons c1 t1 ih =>
    intro r2
    cases r2 with
    | nil =>
      constructor
      · intro _ j a b _ h2
        simp at h2
      · intro _
        cases c1 <;> rfl
    | cons c2 t2 =>
      cases c1 with
      | none =>
        have hred : neqRowAny (none :: t1) (c2 :: t2) = neqRowAny t1 t2 := by
          cases c2 <;> rfl
        rw [hred, ih t2]
        constructor
        · intro H j a b h1 h2
          cases j with
          | zero => simp at h1
          | succ j => exact H j a b (by simpa using h1) (by simpa using h2)
        · intro H j a b h1 h2
          exact H (j + 1) a b (by simpa using h1) (by simpa using h2)
      | some a1 =>
        cases c2 with
        | none =>
          have hred : neqRowAny (some a1 :: t1) (none :: t2) = neqRowAny t1 t2 := rfl
          rw [hred, ih t2]
          constructor
          · intro H j a b h1 h2
            cases j with
            | zero => simp at h2
            | succ j => exact H j a b (by simpa using h1) (by simpa using h2)
          · intro H j a b h1 h2
            exact H (j + 1) a b (by simpa using h1) (by simpa using h2)
        | some a2 =>
          have hred : neqRowAny (some a1 :: t1) (some a2 :: t2)
              = (decide (a1 ≠ a2) || neqRowAny t1 t2) := rfl
          rw [hred, Bool.or_eq_false_iff, ih t2]
          constructor
          · intro ⟨hd, H⟩ j a b h1 h2
            cases j with
            | zero =>
              have ha : a1 = a := by simpa using h1
              have hb : a2 = b := by simpa using h2
              have hab : a1 = a2 := by simpa using hd
              rw [← ha, ← hb, hab]
            | succ j => exact H j a b (by simpa using h1) (by simpa using h2)
          · intro H
            refine ⟨by simpa using H 0 a1 a2 (by simp) (by simp), ?_⟩
            intro j a b h1 h2
            exact H (j + 1) a b (by simpa using h1) (by simpa using h2)

lemma diffGrid_eq_zero_iff :
    ∀ (rs1 rs2 : List (List (Option String))),
      List.countP (fun pr => neqRowAny pr.1 pr.2) (rs1.zip rs2) = 0 ↔
      ∀ (i j : Nat) (a b : String),
        ((rs1.get? i).bind (fun r => r.get? j)) = some (some a) →
        ((rs2.get? i).bind (fun r => r.get? j)) = some (some b) → a = b := by
  intro rs1
  induction rs1 with
  | nil =>
    intro rs2
    constructor
    · intro _ i j a b h1 _
      simp at h1
    · intro _
      simp
  | cons r1 t1 ih =>
    intro rs2
    cases rs2 with
    | nil =>
      constructor
      · intro _ i j a b _ h2
        simp at h2
      · intro _
        simp
    | cons r2 t2 =>
      rw [List.zip_cons_cons, List.countP_cons]
      constructor
      · intro H i j a b h1 h2
        have hzero : List.countP (fun pr => neqRowAny pr.1 pr.2) (t1.zip t2) = 0 := by
          omega
        have hhead : neqRowAny r1 r2 = false := by
          by_cases hb : neqRowAny r1 r2 = true
          · simp [hb] at H
          · simpa using hb
        cases i with
        | zero =>
          exact (neqRowAny_eq_false_iff r1 r2).mp hhead j a b
            (by simpa using h1) (by simpa using h2)
        | succ i =>
          exact (ih t2).mp hzero i j a b (by simpa using h1) (by simpa using h2)
      · intro H
        have hhead : neqRowAny r1 r2 = false := by
          rw [neqRowAny_eq_false_iff]
          intro j a b h1 h2
          exact H 0 j a b (by simpa using h1) (by simpa using h2)
        have htail : List.countP (fun pr => neqRowAny pr.1 pr.2) (t1.zip t2) = 0 := by
          rw [ih t2]
          intro i j a b h1 h2
          exact H (i + 1) j a b (by simpa using h1) (by simpa using h2)
        simp [hhead, htail]

lemma dfs_are_equal_eq_true_iff (df other : DF) :
    dfs_are_equal df other = true ↔
      (df.shape = other.shape ∧ df.cols = other.cols ∧
        ∀ (i j : Nat) (a b : String),
          df.cellAt i j = some (some a) → other.cellAt i j = some (some b) → a = b) := by
  by_cases hs : df.shape = other.shape
  · have hlen : df.rows.length = other.rows.length := congrArg Prod.fst hs
    by_cases hc : df.cols = other.cols
    · have hsubset : df.cols.all (fun c => other.cols.contains c) = true := by
        rw [List.all_eq_true]
        intro c hcmem
        rw [← hc]
        exact List.elem_iff.mpr hcmem
      have hcmp : tryCompare df other = some (diffRowCount df other) := by
        simp [tryCompare, hc, hlen]
      rw [show dfs_are_equal df other
            = decide (diffRowCount df other = 0) by
          unfold dfs_are_equal
          rw [if_pos hs, if_pos hsubset, hcmp]]
      constructor
      · intro h
        refine ⟨hs, hc, ?_⟩
        have h0 : diffRowCount df other = 0 := by simpa using h
        intro i j a b h1 h2
        exact (diffGrid_eq_zero_iff df.rows other.rows).mp h0 i j a b h1 h2
      · rintro ⟨-, -, H⟩
        have h0 : diffRowCount df other = 0 :=
          (diffGrid_eq_zero_iff df.rows other.rows).mpr
            (fun i j a b h1 h2 => H i j a b h1 h2)
        simpa using h0
    · have hcmp : tryCompare df other = none := by
        simp [tryCompare, hc]
      have hfalse : dfs_are_equal df other = false := by
        unfold dfs_are_equal
        rw [if_pos hs, hcmp]
        split <;> rfl
      simp [hfalse, hc]
  · have hfalse : dfs_are_equal df other = false := by
      unfold dfs_are_equal
      rw [if_neg hs]
    simp [hfalse, hs]

lemma mapM_option_get? {α β : Type} (f : α → Option β) :
    ∀ (l : List α) (out : List β), l.mapM f = some out →
      ∀ (i : Nat) (a : α), l.get? i = some a → out.get? i = f a := by
  intro l
  induction l with
  | nil =>
    intro out _ i a hi
    simp at hi
  | cons x t ih =>
    intro out h i a hi
    rw [List.mapM_cons] at h
    cases hfx : f x with
    | none => rw [hfx] at h; simp at h
    | some y =>
      rw [hfx] at h
      cases hmt : t.mapM f with
      | none => rw [hmt] at h; simp at h
      | some ys =>
        rw [hmt] at h
        simp at h
        cases i with
        | zero =>
          have hax : x = a := by simpa using hi
          subst hax
          rw [← h, hfx]
          rfl
        | succ i =>
          have hti : t.get? i = some a := by simpa using hi
          rw [← h]
          simpa using ih ys hmt i a hti

lemma zipWith_get?_some {α β γ : Type} (f : α → β → γ) :
    ∀ (l1 : List α) (l2 : List β) (i : Nat) (x : α) (y : β),
      l1.get? i = some x → l2.get? i = some y →
      (List.zipWith f l1 l2).get? i = some (f x y) := by
  intro l1
  induction l1 with
  | nil =>
    intro l2 i x y h1 _
    simp at h1
  | cons a t ih =>
    intro l2 i x y h1 h2
    cases l2 with
    | nil => simp at h2
    | cons b t2 =>
      cases i with
      | zero =>
        have hx : a = x := by simpa using h1
        have hy : b = y := by simpa using h2
        subst hx; subst hy
        rfl
      | succ i =>
        have h1' : t.get? i = some x := by simpa using h1
        have h2' : t2.get? i = some y := by simpa using h2
        simpa using ih t2 i x y h1' h2'

lemma pyStrip_single (e : Char) (h : ¬ e.isWhitespace) : pyStrip [e] = [e] := by
  simp [pyStrip, List.dropWhile, h]

/-! ### Claim C2: the snapshot differ verdict, characterized -/

/-- Claim C2, counterexample: the claim states that a cell present on
one side and absent on the other always makes the result changed, but
`dfs_are_equal` masks differences with both null tests, so a one-row
frame holding a value compares as unchanged against the same frame
holding a missing value, refuting the claimed characterization
(`specIsUnchanged` is that characterization, written from the spec
text). -/
theorem snapshot_differ_iff_counterexample :
    dfs_are_equal ⟨["A"], [[some "x"]]⟩ ⟨["A"], [[none]]⟩ = true
      ∧ ¬ specIsUnchanged ⟨["A"], [[some "x"]]⟩ ⟨["A"], [[none]]⟩ := by
  constructor
  · decide
  · decide

/-- Claim C2, amended: `dfs_are_equal` returns unchanged if and only if
the shapes match, the two column sequences are identical (a differing
order makes the frame comparison raise, which the differ converts to
changed), and no cell position is present on both sides with different
values; a present-versus-absent pair never counts as a difference. -/
theorem snapshot_differ_iff_amended (df other : DF) :
    dfs_are_equal df other = true ↔
      (df.shape = other.shape ∧ df.cols = other.cols ∧
        ∀ (i j : Nat) (a b : String),
          df.cellAt i j = some (some a) → other.cellAt i j = some (some b) → a = b) :=
  dfs_are_equal_eq_true_iff df other

/-- Witness for claim C2 at a concrete frame pair. -/
theorem snapshot_differ_iff_witness :
    dfs_are_equal ⟨["A"], [[some "x"]]⟩ ⟨["A"], [[some "x"]]⟩ = true :=
  (snapshot_differ_iff_amended ⟨["A"], [[some "x"]]⟩ ⟨["A"], [[some "x"]]⟩).mpr
    ⟨rfl, rfl, fun _ _ a b h1 h2 => by
      have h := h1.symm.trans h2
      simpa using h⟩

/-- Claim C3: snapshot equality is reflexive (a frame compared with an
exact copy of itself is unchanged), symmetric (swapping the arguments
never changes the verdict), and any exception raised inside the
comparison is converted into the verdict changed instead of
propagating. -/
theorem snapshot_differ_properties :
    (∀ df : DF, dfs_are_equal df df = true)
    ∧ (∀ df other : DF, dfs_are_equal df other = dfs_are_equal other df)
    ∧ (∀ df other : DF, tryCompare df other = none → dfs_are_equal df other = false) := by
  refine ⟨?_, ?_, ?_⟩
  · intro df
    exact (dfs_are_equal_eq_true_iff df df).mpr
      ⟨rfl, rfl, fun _ _ a b h1 h2 => by
        have h := h1.symm.trans h2
        simpa using h⟩
  · intro df other
    by_cases h1 : dfs_are_equal df other = true
    · obtain ⟨hs, hc, H⟩ := (dfs_are_equal_eq_true_iff df other).mp h1
      have h2 : dfs_are_equal other df = true :=
        (dfs_are_equal_eq_true_iff other df).mpr
          ⟨hs.symm, hc.symm, fun i j a b ha hb => (H i j b a hb ha).symm⟩
      rw [h1, h2]
    · have h1f : dfs_are_equal df other = false := by
        cases hb : dfs_are_equal df other
        · rfl
        · exact absurd hb h1
      by_cases h2 : dfs_are_equal other df = true
      · obtain ⟨hs, hc, H⟩ := (dfs_are_equal_eq_true_iff other df).mp h2
        have hcontra : dfs_are_equal df other = true :=
          (dfs_are_equal_eq_true_iff df other).mpr
            ⟨hs.symm, hc.symm, fun i j a b ha hb => (H i j b a hb ha).symm⟩
        exact absurd hcontra h1
      · have h2f : dfs_are_equal other df = false := by
          cases hb : dfs_are_equal other df
          · rfl
          · exact absurd hb h2
        rw [h1f, h2f]
  · intro df other hnone
    unfold dfs_are_equal
    rw [hnone]
    split
    · split
      · rfl
      · rfl
    · rfl

/-- Witness for claim C3: a concrete pair whose comparison raises
(different column labels) and is reported as changed. -/
theorem snapshot_differ_properties_witness :
    tryCompare ⟨["A"], [[some "x"]]⟩ ⟨["B"], [[some "x"]]⟩ = none
    ∧ dfs_are_equal ⟨["A"], [[some "x"]]⟩ ⟨["B"], [[some "x"]]⟩ = false :=
  ⟨by decide,
   snapshot_differ_properties.2.2 ⟨["A"], [[some "x"]]⟩ ⟨["B"], [[some "x"]]⟩ (by decide)⟩

/-! ### Claim C10: year normalization consistency -/

/-- Claim C10: for every input whose string form has length 2 or 4,
`parse_year_long` returns a 4-character string; it is idempotent; the
short form of the long form agrees with the short form of the input;
and the two functions fail on exactly the same inputs, namely those of
any other length. -/
theorem year_normalization_consistent :
    (∀ y : List Char, y.length = 2 ∨ y.length = 4 →
      ∃ z, parse_year_long y = some z ∧ z.length = 4)
    ∧ (∀ y : List Char, (parse_year_long y).bind parse_year_long = parse_year_long y)
    ∧ (∀ y : List Char, (parse_year_long y).bind parse_year_short = parse_year_short y)
    ∧ (∀ y : List Char, parse_year_long y = none ↔ parse_year_short y = none)
    ∧ (∀ y : List Char, parse_year_long y = none ↔ (y.length ≠ 2 ∧ y.length ≠ 4)) := by
  refine ⟨?_, ?_, ?_, ?_, ?_⟩
  · intro y hy
    rcases hy with h2 | h4
    · exact ⟨'2' :: '0' :: y, by simp [parse_year_long, h2], by simp [h2]⟩
    · refine ⟨y, ?_, h4⟩
      simp [parse_year_long, h4]
  · intro y
    by_cases h2 : y.length = 2
    · simp [parse_year_long, h2]
    · by_cases h4 : y.length = 4
      · simp [parse_year_long, h2, h4]
      · simp [parse_year_long, h2, h4]
  · intro y
    by_cases h2 : y.length = 2
    · have hl : parse_year_long y = some ('2' :: '0' :: y) := by
        simp [parse_year_long, h2]
      have htake : y.take 2 = y := by
        conv_lhs => rw [← h2]
        exact List.take_length y
      have hs4 : parse_year_short ('2' :: '0' :: y) = some y := by
        simp [parse_year_short, h2, htake]
      have hs2 : parse_year_short y = some y := by
        simp [parse_year_short, h2]
      rw [hl, hs2]
      simpa using hs4
    · by_cases h4 : y.length = 4
      · have hl : parse_year_long y = some y := by simp [parse_year_long, h2, h4]
        rw [hl]
        rfl
      · have hl : parse_year_long y = none := by simp [parse_year_long, h2, h4]
        have hs : parse_year_short y = none := by simp [parse_year_short, h2, h4]
        rw [hl, hs]
        rfl
  · intro y
    by_cases h2 : y.length = 2
    · simp [parse_year_long, parse_year_short, h2]
    · by_cases h4 : y.length = 4
      · simp [parse_year_long, parse_year_short, h2, h4]
      · simp [parse_year_long, parse_year_short, h2, h4]
  · intro y
    by_cases h2 : y.length = 2
    · simp [parse_year_long, h2]
    · by_cases h4 : y.length = 4
      · simp [parse_year_long, h2, h4]
      · simp [parse_year_long, h2, h4]

/-- Witness for claim C10 at the concrete short year 22. -/
theorem year_normalization_consistent_witness :
    (['2', '2'].length = 2 ∨ ['2', '2'].length = 4)
    ∧ ∃ z, parse_year_long ['2', '2'] = some z ∧ z.length = 4 :=
  ⟨by decide, year_normalization_consistent.1 ['2', '2'] (by decide)⟩

/-! ### Claim C4: the year schema resolver -/

/-- Claim C4: every year normalizing to a value up to 2018 gets the
7-column schema ending in a single Note column; every year normalizing
past 2018 gets the 8-column schema with the two note columns; and a
year input of any other string length raises the unsupported-year
error instead of guessing a schema.  Concrete instances cover the
boundary years 2018 and 2019 in both long and short form. -/
theorem get_columns_schema :
    (∀ (y : List Char) (n : Int), parse_year_int y = some n → n ≤ 2018 →
      get_columns y = some columnsPre2019)
    ∧ columnsPre2019.length = 7
    ∧ columnsPre2019.getLast? = some "Note"
    ∧ (∀ (y : List Char) (n : Int), parse_year_int y = some n → 2018 < n →
      get_columns y = some columnsPost2019)
    ∧ columnsPost2019.length = 8
    ∧ "Note_sessione_straordinaria" ∈ columnsPost2019
    ∧ "Note_immatricolazione" ∈ columnsPost2019
    ∧ (∀ y : List Char, y.length ≠ 2 → y.length ≠ 4 → get_columns y = none)
    ∧ get_columns "2018".toList = some columnsPre2019
    ∧ get_columns "2019".toList = some columnsPost2019
    ∧ get_columns "18".toList = some columnsPre2019
    ∧ get_columns "19".toList = some columnsPost2019
    ∧ get_columns "5".toList = none := by
  refine ⟨?_, by decide, by decide, ?_, by decide, by decide, by decide, ?_,
    by decide, by decide, by decide, by decide, by decide⟩
  · intro y n h hle
    simp [get_columns, h, hle]
  · intro y n h hgt
    have hnle : ¬ n ≤ 2018 := by omega
    simp [get_columns, h, hnle]
  · intro y h2 h4
    have hl : parse_year_long y = none := by simp [parse_year_long, h2, h4]
    simp [get_columns, parse_year_int, hl]

/-- Witness for claim C4 at the concrete year 19. -/
theorem get_columns_schema_witness :
    (parse_year_int "19".toList = some 2019 ∧ (2018 : Int) < 2019)
    ∧ get_columns "19".toList = some columnsPost2019 :=
  ⟨⟨by decide, by decide⟩,
   get_columns_schema.2.2.2.1 "19".toList 2019 (by decide) (by decide)⟩

/-! ### Claim C6: name and date-of-birth parsing -/

/-- Claim C6: the cell Rossi Mario (01/02/1990) parses to the display
name Rossi Mario and the birthdate 1990-02-01 read in day/month/year
order; the cell Rossi Mario without a parenthesis yields an absent
birthdate without raising, and its display name is the cell itself. -/
theorem name_dob_parsing :
    parse_birthday "Rossi Mario (01/02/1990)".toList = some ⟨1990, 2, 1⟩
    ∧ clean_cognome_nome "Rossi Mario (01/02/1990)".toList = "Rossi Mario".toList
    ∧ parse_birthday "Rossi Mario".toList = none
    ∧ clean_cognome_nome "Rossi Mario".toList = "Rossi Mario".toList := by
  refine ⟨by decide, by decide, by decide, by decide⟩

/-! ### Claim C5: account-code extraction -/

/-- Claim C5: for every link whose parsed query yields a username value
of the form MEM123ABC_22 followed by anything (newline-free, as query
strings are), the extracted account code is 123ABC — the MEM prefix is
removed and the underscore-year suffix cut; and for every link whose
query lacks the username parameter the extraction raises (none).  A
concrete full capability link is evaluated end to end. -/
theorem account_code_extraction :
    (∀ (link rest : List Char),
      parseQsFirst (urlQuery link) ['u', 's', 'e', 'r', 'n', 'a', 'm', 'e']
          = some (['M', 'E', 'M', '1', '2', '3', 'A', 'B', 'C', '_', '2', '2'] ++ rest) →
      '\n' ∉ rest →
      extract_previdence_code link = some ['1', '2', '3', 'A', 'B', 'C'])
    ∧ (∀ link : List Char,
        parseQsFirst (urlQuery link) ['u', 's', 'e', 'r', 'n', 'a', 'm', 'e'] = none →
        extract_previdence_code link = none)
    ∧ extract_previdence_code
        "https://ssm.cineca.it/autenticazione.php?username=MEM123ABC_22&year_ssm=2022".toList
      = some "123ABC".toList := by
  refine ⟨?_, ?_, by decide⟩
  · intro link rest h _
    unfold extract_previdence_code
    rw [h]
    rfl
  · intro link h
    unfold extract_previdence_code
    rw [h]

/-- Witness for claim C5 at a concrete capability link. -/
theorem account_code_extraction_witness :
    (parseQsFirst
        (urlQuery "https://x.it/a.php?username=MEM123ABC_22".toList)
        ['u', 's', 'e', 'r', 'n', 'a', 'm', 'e']
      = some (['M', 'E', 'M', '1', '2', '3', 'A', 'B', 'C', '_', '2', '2'] ++ [])
     ∧ '\n' ∉ ([] : List Char))
    ∧ extract_previdence_code "https://x.it/a.php?username=MEM123ABC_22".toList
      = some ['1', '2', '3', 'A', 'B', 'C'] :=
  ⟨⟨by decide, by decide⟩,
   account_code_extraction.1 "https://x.it/a.php?username=MEM123ABC_22".toList []
     (by decide) (by decide)⟩

/-! ### Claim C7: pagination discovery on a missing selector -/

/-- Claim C7, counterexample: with the page selector absent and a
non-empty table (five rows), `detect_limit` does not return a page
count of 1; it raises (the attribute access on the missing selector),
refuting the never-crash fallback the claim describes. -/
theorem pagination_fallback_counterexample :
    detect_limit ⟨200, none, 5⟩ = none ∧ detect_limit ⟨200, none, 5⟩ ≠ some 1 := by
  refine ⟨by decide, by decide⟩

/-- Claim C7, amended: when the page-selector control is absent,
`detect_limit` fails with an unclassified error no matter what the
table holds — there is no fallback to 1 and no dedicated
pagination error type; when the selector is present, the result is the
maximum of its numeric option values (raising on an empty or
non-numeric option list). -/
theorem pagination_no_fallback :
    (∀ p : RankingPage, p.selPag = none → detect_limit p = none)
    ∧ (∀ (k : Nat) (opts : List (List Char)) (vals : List Int),
        opts.mapM convert_option_text_to_integer = some vals →
        detect_limit ⟨200, some opts, k⟩ = pyMaxInt vals)
    ∧ detect_limit ⟨200, some ["10".toList, "2".toList], 0⟩ = some 10 := by
  refine ⟨?_, ?_, by decide⟩
  · intro p h
    unfold detect_limit
    split
    · rfl
    · rw [h]
  · intro k opts vals h
    have hred : detect_limit ⟨200, some opts, k⟩
        = (opts.mapM convert_option_text_to_integer).bind pyMaxInt := rfl
    rw [hred, h]
    rfl

/-- Witness for claim C7 at a concrete selector with options 1 and 3. -/
theorem pagination_no_fallback_witness :
    (["1".toList, "3".toList].mapM convert_option_text_to_integer = some [1, 3])
    ∧ detect_limit ⟨200, some ["1".toList, "3".toList], 7⟩ = pyMaxInt [1, 3] :=
  ⟨by decide, pagination_no_fallback.2.1 7 ["1".toList, "3".toList] [1, 3] (by decide)⟩

/-! ### Claim C8: contract-type derivation -/

/-- Claim C8: a marker with exactly one child derives the fixed
sentinel STAT; a marker whose second child shows a single
non-whitespace character (such as an emoji) with tooltip VOLUNTARY
derives VOLUNTARY, the tooltip, not the character; otherwise the second
child text, stripped and upper-cased, is the contract when it is
non-empty, longer than one character and emoji-free. -/
theorem contract_derivation :
    (∀ (ec : List Char → Nat) (s : List Char),
      deriveContract ec [MarkerChild.textNode s] = some (some ['S', 'T', 'A', 'T']))
    ∧ (∀ (ec : List Char → Nat) (s : List Char) (e : Char) (rest : List MarkerChild),
        ¬ e.isWhitespace →
        deriveContract ec
          (MarkerChild.textNode s ::
            MarkerChild.tagNode [e]
              (some ['V', 'O', 'L', 'U', 'N', 'T', 'A', 'R', 'Y']) :: rest)
          = some (some ['V', 'O', 'L', 'U', 'N', 'T', 'A', 'R', 'Y']))
    ∧ (∀ (ec : List Char → Nat) (s t : List Char) (ttl : Option (List Char))
        (rest : List MarkerChild),
        pyUpper (pyStrip t) ≠ [] →
        (pyUpper (pyStrip t)).length ≠ 1 →
        ec (pyUpper (pyStrip t)) = 0 →
        deriveContract ec (MarkerChild.textNode s :: MarkerChild.tagNode t ttl :: rest)
          = some (some (pyUpper (pyStrip t)))) := by
  refine ⟨?_, ?_, ?_⟩
  · intro ec s
    rfl
  · intro ec s e rest h
    unfold deriveContract
    simp only [MarkerChild.stripOf, MarkerChild.textOf, MarkerChild.titleOf]
    rw [pyStrip_single e h]
    have hlen : (pyUpper [e]).length = 1 := by simp [pyUpper]
    rw [if_pos (Or.inr (Or.inl hlen))]
    rfl
  · intro ec s t ttl rest h1 h2 h3
    unfold deriveContract
    simp only [MarkerChild.stripOf, MarkerChild.textOf, MarkerChild.titleOf]
    rw [if_neg]
    intro hcond
    rcases hcond with hc | hc | hc
    · exact h1 hc
    · exact h2 hc
    · exact hc h3

/-- Witness for claim C8: the military-medal emoji with tooltip
VOLUNTARY derives the tooltip. -/
theorem contract_derivation_witness :
    (¬ (Char.ofNat 0x1F396).isWhitespace)
    ∧ deriveContract (fun _ => 1)
        [MarkerChild.textNode "x".toList,
         MarkerChild.tagNode [Char.ofNat 0x1F396]
           (some ['V', 'O', 'L', 'U', 'N', 'T', 'A', 'R', 'Y'])]
      = some (some ['V', 'O', 'L', 'U', 'N', 'T', 'A', 'R', 'Y']) :=
  ⟨by decide,
   contract_derivation.2.1 (fun _ => 1) "x".toList (Char.ofNat 0x1F396) [] (by decide)⟩

/-! ### Claim C1: anomaly-rank resolution -/

lemma resolveRanks_star (col : List RankCell) (h : rankColumnHasStar col = some true) :
    resolveRanks col =
      (List.zipWith (fun r s => r.orElse (fun _ => s))
        (col.map (fun c => if c = RankCell.str ['(', '*', ')'] then none else some c))
        (rankShift col)).mapM
        (fun oc => match oc with
          | some (RankCell.num v) => some (v + 1)
          | _ => none) := by
  unfold resolveRanks
  rw [h]

/-- Claim C1, counterexample: on the rank cells 10, the anomaly marker,
and 11, the resolved ranks are not 10, 11, 12 as the claim states. -/
theorem anomaly_rank_counterexample :
    ¬ resolveRanks [RankCell.num 10, RankCell.str ['(', '*', ')'], RankCell.num 11]
        = some [10, 11, 12] := by
  decide

/-- Claim C1, amended: on the rank cells 10, anomaly marker, 11, the
resolved ranks are 11, 11, 12 with only the middle row flagged — when
an anomaly is present the code adds one to every resolved value, so the
anomaly row becomes the previous parsed rank plus one while every
numeric row becomes its own parsed rank plus one instead of staying
unchanged; rows keep their parsed rank only in a run without any
anomaly marker (final conjunct, which needs a non-numeric cell for the
column to survive the string accessor). -/
theorem anomaly_rank_resolution_amended :
    resolveRanks [RankCell.num 10, RankCell.str ['(', '*', ')'], RankCell.num 11]
      = some [11, 11, 12]
    ∧ exceptionFlags [RankCell.num 10, RankCell.str ['(', '*', ')'], RankCell.num 11]
      = some [none, some true, none]
    ∧ (∀ (col : List RankCell) (out : List Int) (i : Nat) (v : Int),
        rankColumnHasStar col = some true →
        resolveRanks col = some out →
        col.get? i = some (RankCell.num v) →
        out.get? i = some (v + 1))
    ∧ resolveRanks [RankCell.num 3, RankCell.str [' ', '4', ' ']] = some [3, 4] := by
  refine ⟨by decide, by decide, ?_, by decide⟩
  intro col out i v hstar hres hcell
  rw [resolveRanks_star col hstar] at hres
  have hi : i < col.length := by
    by_contra hge
    push_neg at hge
    rw [List.get?_eq_none.mpr hge] at hcell
    exact Option.noConfusion hcell
  have hshiftlen : (rankShift col).length = col.length := by
    simp only [rankShift, List.length_cons, List.length_map, List.length_dropLast]
    omega
  have hsome : ∃ s, (rankShift col).get? i = some s := by
    cases hs : (rankShift col).get? i with
    | none =>
      rw [List.get?_eq_none, hshiftlen] at hs
      omega
    | some s => exact ⟨s, rfl⟩
  obtain ⟨s, hs⟩ := hsome
  have hrep : (col.map (fun c =>
      if c = RankCell.str ['(', '*', ')'] then none else some c)).get? i
      = some (some (RankCell.num v)) := by
    rw [List.get?_map, hcell]
    rfl
  have hfill := zipWith_get?_some
    (fun (r : Option RankCell) (s : Option RankCell) => r.orElse (fun _ => s))
    (col.map (fun c => if c = RankCell.str ['(', '*', ')'] then none else some c))
    (rankShift col) i (some (RankCell.num v)) s hrep hs
  have hout := mapM_option_get?
    (fun oc => match oc with
      | some (RankCell.num v) => some (v + 1)
      | _ => none)
    (List.zipWith (fun r s => r.orElse (fun _ => s))
      (col.map (fun c => if c = RankCell.str ['(', '*', ')'] then none else some c))
      (rankShift col)) out hres i (some (RankCell.num v)) (by simpa using hfill)
  simpa using hout

/-- Witness for claim C1: the plus-one rule applied to the third cell
of the concrete anomaly column. -/
theorem anomaly_rank_resolution_witness :
    (rankColumnHasStar [RankCell.num 10, RankCell.str ['(', '*', ')'], RankCell.num 11]
        = some true
     ∧ resolveRanks [RankCell.num 10, RankCell.str ['(', '*', ')'], RankCell.num 11]
        = some [11, 11, 12]
     ∧ [RankCell.num 10, RankCell.str ['(', '*', ')'], RankCell.num 11].get? 2
        = some (RankCell.num 11))
    ∧ ([11, 11, 12] : List Int).get? 2 = some (11 + 1) :=
  ⟨⟨by decide, by decide, by decide⟩,
   anomaly_rank_resolution_amended.2.2.1
     [RankCell.num 10, RankCell.str ['(', '*', ')'], RankCell.num 11]
     [11, 11, 12] 2 11 (by decide) (by decide) (by decide)⟩

/-! ### Claim C9: stable output schema -/

/-- Claim C9, counterexample: two runs of the same year 2022, one with
anomaly markers and one without, produce different final column
sequences (the Exception column is inserted only in the first),
refuting the claim that every two runs of the same year share exactly
the same final column sequence. -/
theorem stable_schema_counterexample :
    (grabFinalize "2022".toList true [] 0).map (List.map Prod.fst)
      ≠ (grabFinalize "2022".toList false [] 0).map (List.map Prod.fst) := by
  decide

/-- Claim C9, amended: the final column sequence is a function of the
year and of whether anomaly markers were present (which inserts the
Exception column), so two runs of the same year agree exactly when
their anomaly flag agrees; every listed column missing from the parsed
frame is present in the output filled with the explicit absent value;
and no blank-string value survives normalization. -/
theorem stable_schema_amended :
    (∀ (year : List Char) (exc : Bool) (df1 df2 : List (String × List PCell))
        (n1 n2 : Nat),
      (grabFinalize year exc df1 n1).map (List.map Prod.fst)
        = (grabFinalize year exc df2 n2).map (List.map Prod.fst))
    ∧ (∀ (year : List Char) (exc : Bool) (df : List (String × List PCell)) (n : Nat)
        (cols : List String) (out : List (String × List PCell)),
        finalCols year exc = some cols →
        grabFinalize year exc df n = some out →
        ∀ c ∈ cols, df.lookup c = none →
          (c, List.replicate n PCell.na) ∈ out)
    ∧ (∀ (year : List Char) (exc : Bool) (df : List (String × List PCell)) (n : Nat)
        (out : List (String × List PCell)),
        grabFinalize year exc df n = some out →
        ∀ p ∈ out, PCell.str "" ∉ p.2) := by
  refine ⟨?_, ?_, ?_⟩
  · intro year exc df1 df2 n1 n2
    cases h : finalCols year exc with
    | none => simp [grabFinalize, h]
    | some cols =>
      simp [grabFinalize, h, fillAndOrder, List.map_map, Function.comp]
  · intro year exc df n cols out hfc hout c hc hlk
    unfold grabFinalize at hout
    rw [hfc] at hout
    simp only [Option.map_some'] at hout
    have hout' := Option.some.inj hout
    rw [← hout']
    rw [List.mem_map]
    refine ⟨(c, (df.lookup c).getD (List.replicate n PCell.na)), ?_, ?_⟩
    · unfold fillAndOrder
      rw [List.mem_map]
      exact ⟨c, hc, rfl⟩
    · rw [hlk]
      simp [List.map_replicate, normalizeCell]
  · intro year exc df n out hout p hp
    unfold grabFinalize at hout
    cases hfc : finalCols year exc with
    | none =>
      rw [hfc] at hout
      exact absurd hout (by simp)
    | some cols =>
      rw [hfc] at hout
      simp only [Option.map_some'] at hout
      have hout' := Option.some.inj hout
      rw [← hout'] at hp
      rw [List.mem_map] at hp
      obtain ⟨q, _, hq⟩ := hp
      intro hmem
      rw [← hq] at hmem
      simp only at hmem
      rw [List.mem_map] at hmem
      obtain ⟨x, _, hbad⟩ := hmem
      cases x with
      | na => simp [normalizeCell] at hbad
      | str s =>
        by_cases hempty : s = ""
        · simp [normalizeCell, hempty] at hbad
        · simp [normalizeCell, hempty] at hbad

/-- Witness for claim C9: the rank column is absent from an empty
parsed frame and comes out filled with the absent value. -/
theorem stable_schema_witness :
    (finalCols "18".toList false = some finalColsPre2019
     ∧ grabFinalize "18".toList false [] 2
        = some (finalColsPre2019.map (fun c => (c, List.replicate 2 PCell.na)))
     ∧ "#" ∈ finalColsPre2019
     ∧ ([] : List (String × List PCell)).lookup "#" = none)
    ∧ ("#", List.replicate 2 PCell.na)
        ∈ finalColsPre2019.map (fun c => (c, List.replicate 2 PCell.na)) :=
  ⟨⟨by decide, by decide, by decide, by decide⟩,
   stable_schema_amended.2.1 "18".toList false [] 2 finalColsPre2019
     (finalColsPre2019.map (fun c => (c, List.replicate 2 PCell.na)))
     (by decide) (by decide) "#" (by decide) (by decide)⟩

